import Mathlib

/-!
Shallow embedding of the attendance session and salary computation engine of
the demo-backend repository.

Scope and modelling conventions:

* JavaScript numbers are modelled as rationals (`ℚ`); `Math.round` is the
  JavaScript rounding (half away from zero toward positive infinity), namely
  `⌊q + 1/2⌋`.
* Time-of-day strings of the form "HH:MM" are modelled as a parsed pair of
  hour and minute (`TimeOfDay`); a nullable time string is `Option TimeOfDay`.
* `Date` values (wall-clock timestamps) are modelled as integer milliseconds
  since the epoch (`ℤ`).
* All session operations are keyed by a fixed `(userId, date)` pair, so the
  stored state is modelled as the slice of the two collections for that key:
  the `ActiveSession` documents (`DayState.ledger`) and the unique
  `Attendance` document (`DayState.attendance`).  Metadata fields that no
  operation in scope reads or writes (`notes`, `createdBy`, `editedAt`,
  `editedBy`, `originalStatus`, `createdAt`) are omitted.
* Mongoose `findOne({isActive: true})` is modelled as "first list element with
  `isActive = true`"; `findById` as lookup by list index.
-/

/-- JavaScript `Math.round`: round half toward positive infinity.
Stated via `Rat.floor` so that the definition is kernel-computable;
`jsRound_eq_floor` below restates it with the ambient `Int.floor`. -/
def jsRound (q : ℚ) : ℤ := (q + 1/2).floor

theorem jsRound_eq_floor (q : ℚ) : jsRound q = ⌊q + 1/2⌋ := by
  rw [jsRound, Rat.floor_def', ← Rat.floor_def]

/-- `Math.round(q * 10000) / 10000`: round to 4 decimal places. -/
def round4 (q : ℚ) : ℚ := ((jsRound (q * 10000) : ℚ)) / 10000

/-- `Math.round(q * 100) / 100`: round to 2 decimal places. -/
def round2 (q : ℚ) : ℚ := ((jsRound (q * 100) : ℚ)) / 100

/-- A parsed "HH:MM" time-of-day string. -/
structure TimeOfDay where
  hour : ℕ
  min : ℕ
deriving DecidableEq, Repr

/-- Minutes since midnight of a time of day (`hour * 60 + min`). -/
def TimeOfDay.toMinutes (t : TimeOfDay) : ℤ := t.hour * 60 + t.min

/-- The `status` enum of the Attendance schema. -/
inductive Status where
  | present
  | absent
  | leave
  | late
deriving DecidableEq, Repr

/-- `calculateHoursWorked` from src/Models/Attendance.js: elapsed hours between
two "HH:MM" times, adding 24 hours when the difference is negative, rounded to
4 decimal places; 0 when either input is null. -/
def calculateHoursWorked (checkInTime checkOutTime : Option TimeOfDay) : ℚ :=
  match checkInTime, checkOutTime with
  | some tin, some tout =>
    let checkInMinutes := tin.toMinutes
    let checkOutMinutes := tout.toMinutes
    let totalMinutes := checkOutMinutes - checkInMinutes
    let totalMinutes := if totalMinutes < 0 then totalMinutes + 24 * 60 else totalMinutes
    round4 ((totalMinutes : ℚ) / 60)
  | _, _ => 0

/-- `calculateDailySalary` from src/Models/Attendance.js: `hours * rate`
rounded to 4 decimal places for status present or late, otherwise 0. -/
def calculateDailySalary (hoursWorked hourlyRate : ℚ) (status : Status) : ℚ :=
  if status = Status.present ∨ status = Status.late then
    round4 (hoursWorked * hourlyRate)
  else 0

/-- `hoursBetween` as worded by the specification (section 4.3): take
`endMinutes - startMinutes`, add 1440 if negative, divide by 60, round to
4 decimals; return 0 if either input is absent. -/
def hoursBetween_specSide (start stop : Option TimeOfDay) : ℚ :=
  match start, stop with
  | some s, some e =>
    let d := e.toMinutes - s.toMinutes
    let d := if d < 0 then d + 1440 else d
    round4 ((d : ℚ) / 60)
  | _, _ => 0

/-- C3: the implementation `calculateHoursWorked` coincides with the spec's
`hoursBetween` formula on every pair of parsed "HH:MM" inputs, returns 0 when
either input is absent, and satisfies the two quoted examples
`hoursBetween("09:00","17:00") = 8` and `hoursBetween("22:00","02:00") = 4`. -/
theorem c3_hoursBetween_correct :
    (∀ s e : Option TimeOfDay, calculateHoursWorked s e = hoursBetween_specSide s e)
    ∧ (∀ e : Option TimeOfDay, calculateHoursWorked none e = 0)
    ∧ (∀ s : Option TimeOfDay, calculateHoursWorked s none = 0)
    ∧ calculateHoursWorked (some ⟨9, 0⟩) (some ⟨17, 0⟩) = 8
    ∧ calculateHoursWorked (some ⟨22, 0⟩) (some ⟨2, 0⟩) = 4 := by
  refine ⟨?_, ?_, ?_, ?_, ?_⟩
  · intro s e
    cases s <;> cases e <;> rfl
  · intro e; cases e <;> rfl
  · intro s; cases s <;> rfl
  · simp only [calculateHoursWorked, TimeOfDay.toMinutes, round4, jsRound_eq_floor]
    norm_num
  · simp only [calculateHoursWorked, TimeOfDay.toMinutes, round4, jsRound_eq_floor]
    norm_num

/-! ## Data model -/

/-- The slice of the User document that the core reads (`user.hourlyRate`). -/
structure User where
  hourlyRate : ℚ
deriving DecidableEq, Repr

/-- An embedded session subdocument of the Attendance schema
(src/Models/Attendance.js, `sessions` array).  The `createdAt` metadata
field, which no operation in scope reads, is omitted. -/
structure Session where
  checkInTime : TimeOfDay
  checkOutTime : Option TimeOfDay
  sessionHours : ℚ
  sessionSalary : ℚ
  isActive : Bool
  endedAt : Option ℤ
deriving DecidableEq, Repr

/-- An Attendance (Day Record) document for the fixed `(userId, date)` key
(src/Models/Attendance.js).  Pure metadata fields that no operation in scope
reads or writes (`notes`, `createdBy`, `createdAt`, `editedAt`, `editedBy`,
`originalStatus`) are omitted. -/
structure Attendance where
  status : Status
  sessions : List Session
  checkInTime : Option TimeOfDay
  checkOutTime : Option TimeOfDay
  totalHours : ℚ
  hourlyRate : ℚ
  dailySalary : ℚ
  isLate : Bool
  lateMinutes : ℤ
  isActive : Bool
  forceStopped : Bool
  forceStoppedBy : Option String
  forceStoppedAt : Option ℤ
deriving DecidableEq, Repr

/-- An ActiveSession document for the fixed `(userId, date)` key
(src/Models/ActiveSession.js).  `checkInTime` is a wall-clock timestamp in
milliseconds. -/
structure ActiveSessionRec where
  checkInTime : ℤ
  isActive : Bool
  totalHours : ℚ
  lastUpdated : Option ℤ
  forceStopped : Bool
  forceStoppedBy : Option String
  forceStoppedAt : Option ℤ
deriving DecidableEq, Repr

/-! ## Day Record recomputation: the pre-save middleware of Attendance.js -/

/-- The per-session body of the loop in `AttendanceSchema.pre('save')`:
a session with a `checkOutTime` is closed (hours recomputed from its two
stored times), a session without one stays active with provisional hours
against the current time; salary is derived from the record's status and the
snapshotted rate. -/
def recomputeSession (rate : ℚ) (status : Status) (nowTod : TimeOfDay) (nowTs : ℤ)
    (s : Session) : Session :=
  match s.checkOutTime with
  | some _ =>
    let h := calculateHoursWorked (some s.checkInTime) s.checkOutTime
    { s with sessionHours := h,
             sessionSalary := calculateDailySalary h rate status,
             isActive := false,
             endedAt := some nowTs }
  | none =>
    let h := calculateHoursWorked (some s.checkInTime) (some nowTod)
    { s with sessionHours := h,
             sessionSalary := calculateDailySalary h rate status,
             isActive := true }

/-- The `user.hourlyRate > 0` branch of `AttendanceSchema.pre('save')`:
snapshot the rate, recompute every session, recompute the totals, and update
the legacy mirror fields from the first and last session when the session
list is nonempty. -/
def recomputeWithRate (rate : ℚ) (nowTod : TimeOfDay) (nowTs : ℤ)
    (a : Attendance) : Attendance :=
  let sessions := a.sessions.map (recomputeSession rate a.status nowTod nowTs)
  let totalHours := (sessions.map Session.sessionHours).sum
  let totalSalary := (sessions.map Session.sessionSalary).sum
  let a1 : Attendance :=
    { a with hourlyRate := rate,
             sessions := sessions,
             totalHours := round4 totalHours,
             dailySalary := round4 totalSalary }
  match sessions with
  | [] => a1
  | first :: rest =>
    { a1 with checkInTime := some first.checkInTime,
              checkOutTime := ((first :: rest).getLast (by simp)).checkOutTime,
              isActive := (first :: rest).any (fun s => s.isActive) }

/-- The `else` branch of `AttendanceSchema.pre('save')` (no user, or
`user.hourlyRate ≤ 0`): force the monetary fields and the activity flag to
zero; sessions are left untouched. -/
def zeroOutTotals (a : Attendance) : Attendance :=
  { a with hourlyRate := 0, totalHours := 0, dailySalary := 0, isActive := false }

/-- `AttendanceSchema.pre('save')` from src/Models/Attendance.js, as a
function of the looked-up user, the current time of day, the current
timestamp and the document being saved. -/
def attendancePreSave (user : Option User) (nowTod : TimeOfDay) (nowTs : ℤ)
    (a : Attendance) : Attendance :=
  match user with
  | some u =>
    if 0 < u.hourlyRate then recomputeWithRate u.hourlyRate nowTod nowTs a
    else zeroOutTotals a
  | none => zeroOutTotals a

/-! ## Session operations (src/Controller/sessionController.js and
src/Routes/admin.js) -/

/-- The stored state for one `(userId, date)` key: the ActiveSession documents
and the unique Attendance document. -/
structure DayState where
  ledger : List ActiveSessionRec
  attendance : Option Attendance
deriving DecidableEq, Repr

/-- Shape of the `userId` taken from the request body: absent, present but
not a valid ObjectId, or valid. -/
inductive UserIdParam where
  | missing
  | malformed
  | valid
deriving DecidableEq, Repr

/-- The JSON response of a session operation, reduced to what the claims
need: a success-shaped body (carrying the echoed session document, `none`
when the body's `session` is null) or an HTTP error status. -/
inductive ApiResponse where
  | success (session : Option ActiveSessionRec)
  | error (status : ℕ)
deriving DecidableEq, Repr

/-- `ActiveSession.findOne({userId, date, isActive: true})`: the first
document with `isActive = true`, together with its position. -/
def findActiveSession (l : List ActiveSessionRec) : Option (ℕ × ActiveSessionRec) :=
  match l.findIdx? (fun s => s.isActive) with
  | some i => (l[i]?).map (fun s => (i, s))
  | none => none

/-- Number of ledger documents with `isActive = true`. -/
def countActive (l : List ActiveSessionRec) : ℕ := l.countP (fun s => s.isActive)

/-- The fresh Attendance document built by `startSession` when none exists for
`(userId, today)`: status present, one active session, schema defaults
elsewhere. -/
def newAttendanceForStart (nowTod : TimeOfDay) : Attendance :=
  { status := Status.present,
    sessions := [{ checkInTime := nowTod, checkOutTime := none,
                   sessionHours := 0, sessionSalary := 0,
                   isActive := true, endedAt := none }],
    checkInTime := none, checkOutTime := none, totalHours := 0,
    hourlyRate := 0, dailySalary := 0, isLate := false,
    lateMinutes := 0, isActive := true, forceStopped := false,
    forceStoppedBy := none, forceStoppedAt := none }

/-- `startSession` from src/Controller/sessionController.js.  Missing or
malformed `userId`, or an unknown user, yields a success-shaped response with
null payload and no mutation.  If an active ledger session already exists it
is returned as-is.  Otherwise a new ledger document is created and a session
is appended to the (possibly fresh) Attendance record, which is then saved
through the pre-save middleware. -/
def startSession (param : UserIdParam) (user : Option User) (nowTs : ℤ)
    (nowTod : TimeOfDay) (st : DayState) : DayState × ApiResponse :=
  match param with
  | .missing => (st, .success none)
  | .malformed => (st, .success none)
  | .valid =>
    match user with
    | none => (st, .success none)
    | some u =>
      match findActiveSession st.ledger with
      | some (_, existing) => (st, .success (some existing))
      | none =>
        let newActive : ActiveSessionRec :=
          { checkInTime := nowTs, isActive := true, totalHours := 0,
            lastUpdated := some nowTs, forceStopped := false,
            forceStoppedBy := none, forceStoppedAt := none }
        let att0 :=
          match st.attendance with
          | none => newAttendanceForStart nowTod
          | some att =>
            { att with
                sessions := att.sessions ++
                  [{ checkInTime := nowTod, checkOutTime := none,
                     sessionHours := 0, sessionSalary := 0,
                     isActive := true, endedAt := none }],
                isActive := true }
        let att1 := attendancePreSave (some u) nowTod nowTs att0
        ({ ledger := st.ledger ++ [newActive], attendance := some att1 },
         .success (some newActive))

/-- The embedded-session update shared verbatim by `stopSession` and
`forceStopSession` (src/Controller/sessionController.js): find the first
active embedded session, stamp its check-out time, deactivate it and store
its elapsed hours rounded to 4 decimals. -/
def closeEmbeddedSession (nowTod : TimeOfDay) (nowTs : ℤ) (sessionHours : ℚ)
    (att : Attendance) : Attendance :=
  match att.sessions.findIdx? (fun s => s.isActive) with
  | some j =>
    match att.sessions[j]? with
    | some s =>
      let s1 : Session :=
        { s with checkOutTime := some nowTod, isActive := false,
                 endedAt := some nowTs, sessionHours := round4 sessionHours }
      { att with sessions := att.sessions.set j s1 }
    | none => att
  | none => att

/-- `stopSession` from src/Controller/sessionController.js.  Missing or
malformed `userId` yields a success-shaped response with no mutation; so does
the absence of an active ledger session.  Otherwise the ledger document is
closed with hours rounded to 4 decimals, the first active embedded session of
the Attendance record is closed, and the record is saved through the pre-save
middleware.  When no Attendance record exists the response construction
throws on `attendance._id` and the catch block returns the null-payload
success body (the ledger mutation has already been saved at that point). -/
def stopSession (param : UserIdParam) (user : Option User) (nowTs : ℤ)
    (nowTod : TimeOfDay) (st : DayState) : DayState × ApiResponse :=
  match param with
  | .missing => (st, .success none)
  | .malformed => (st, .success none)
  | .valid =>
    match findActiveSession st.ledger with
    | none => (st, .success none)
    | some (i, act) =>
      let totalHours := ((nowTs - act.checkInTime : ℤ) : ℚ) / (1000 * 60 * 60)
      let act1 := { act with isActive := false, totalHours := round4 totalHours,
                             lastUpdated := some nowTs }
      let ledger1 := st.ledger.set i act1
      match st.attendance with
      | none => ({ ledger := ledger1, attendance := none }, .success none)
      | some att =>
        let att1 := attendancePreSave user nowTod nowTs
          (closeEmbeddedSession nowTod nowTs totalHours att)
        ({ ledger := ledger1, attendance := some att1 }, .success (some act1))

/-- `forceStopSession` from src/Controller/sessionController.js: locate the
ledger document by id; 404 when absent, 400 when inactive; otherwise close it
with hours rounded to 2 decimals and stamp the three provenance fields, then
close the first active embedded session of the Attendance record (4-decimal
hours, as in `stopSession`), stamp the record-level provenance fields and
save through the pre-save middleware. -/
def forceStopSession (sessionId : ℕ) (adminId : Option String) (user : Option User)
    (nowTs : ℤ) (nowTod : TimeOfDay) (st : DayState) : DayState × ApiResponse :=
  match st.ledger[sessionId]? with
  | none => (st, .error 404)
  | some act =>
    if act.isActive = false then (st, .error 400)
    else
      let totalHours := ((nowTs - act.checkInTime : ℤ) : ℚ) / (1000 * 60 * 60)
      let act1 := { act with isActive := false, totalHours := round2 totalHours,
                             lastUpdated := some nowTs, forceStopped := true,
                             forceStoppedBy := some (adminId.getD "admin"),
                             forceStoppedAt := some nowTs }
      let ledger1 := st.ledger.set sessionId act1
      match st.attendance with
      | none => ({ ledger := ledger1, attendance := none }, .success (some act1))
      | some att =>
        let att1 := closeEmbeddedSession nowTod nowTs totalHours att
        let att2 := { att1 with forceStopped := true,
                                forceStoppedBy := some (adminId.getD "admin"),
                                forceStoppedAt := some nowTs }
        let att3 := attendancePreSave user nowTod nowTs att2
        ({ ledger := ledger1, attendance := some att3 }, .success (some act1))

/-- `POST /attendance/force-stop` from src/Routes/admin.js: 404 when no
Attendance record exists for the target day, 400 when the record has zero
active embedded sessions; otherwise close every active embedded session,
stamp the record-level provenance fields, save through the pre-save
middleware, and deactivate the matching ledger documents via `updateMany`
(which stamps `forceStopped`/`forceStoppedBy` but not `forceStoppedAt`).
The route's per-session `forceStopped*` writes target paths that are not in
the embedded-session schema, so mongoose drops them on save and they do not
appear here. -/
def adminForceStopRoute (adminId : Option String) (user : Option User)
    (nowTs : ℤ) (nowTod : TimeOfDay) (st : DayState) : DayState × ApiResponse :=
  match st.attendance with
  | none => (st, .error 404)
  | some att =>
    let forceStoppedSessions := att.sessions.countP (fun s => s.isActive)
    if forceStoppedSessions = 0 then (st, .error 400)
    else
      let sessions1 := att.sessions.map (fun s =>
        if s.isActive then
          { s with checkOutTime := some nowTod, isActive := false,
                   endedAt := some nowTs }
        else s)
      let att1 := { att with sessions := sessions1, isActive := false,
                             forceStopped := true,
                             forceStoppedBy := some (adminId.getD "admin"),
                             forceStoppedAt := some nowTs }
      let att2 := attendancePreSave user nowTod nowTs att1
      let ledger1 := st.ledger.map (fun a =>
        if a.isActive then
          { a with isActive := false, lastUpdated := some nowTs,
                   forceStopped := true,
                   forceStoppedBy := some (adminId.getD "admin") }
        else a)
      ({ ledger := ledger1, attendance := some att2 }, .success none)

/-! ## Arithmetic helper lemmas about the 4-decimal rounding -/

theorem jsRound_intCast (n : ℤ) : jsRound ((n : ℚ)) = n := by
  rw [jsRound_eq_floor, Int.floor_int_add]
  norm_num

/-- The multiples of `1/10000`: the values `Math.round(x*10000)/10000` can
produce. -/
def IsRound4 (q : ℚ) : Prop := ∃ n : ℤ, q = (n : ℚ) / 10000

theorem isRound4_round4 (q : ℚ) : IsRound4 (round4 q) := ⟨jsRound (q * 10000), rfl⟩

theorem isRound4_zero : IsRound4 0 := ⟨0, by norm_num⟩

theorem isRound4_add {p q : ℚ} (hp : IsRound4 p) (hq : IsRound4 q) :
    IsRound4 (p + q) := by
  obtain ⟨n, rfl⟩ := hp
  obtain ⟨m, rfl⟩ := hq
  exact ⟨n + m, by push_cast; ring⟩

theorem round4_of_isRound4 {q : ℚ} (h : IsRound4 q) : round4 q = q := by
  obtain ⟨n, rfl⟩ := h
  rw [round4, div_mul_cancel₀ _ (by norm_num : (10000 : ℚ) ≠ 0), jsRound_intCast]

theorem isRound4_sum {l : List ℚ} (h : ∀ q ∈ l, IsRound4 q) : IsRound4 l.sum := by
  induction l with
  | nil => simpa using isRound4_zero
  | cons x xs ih =>
    rw [List.sum_cons]
    exact isRound4_add (h x (by simp)) (ih fun q hq => h q (by simp [hq]))

theorem isRound4_calculateHoursWorked (s e : Option TimeOfDay) :
    IsRound4 (calculateHoursWorked s e) := by
  cases s <;> cases e <;> first
    | exact isRound4_zero
    | exact isRound4_round4 _

theorem isRound4_calculateDailySalary (h r : ℚ) (st : Status) :
    IsRound4 (calculateDailySalary h r st) := by
  rw [calculateDailySalary]
  split
  · exact isRound4_round4 _
  · exact isRound4_zero

/-! ## Structural lemmas about the recompute step -/

theorem recomputeWithRate_sessions (rate : ℚ) (tod : TimeOfDay) (ts : ℤ)
    (a : Attendance) :
    (recomputeWithRate rate tod ts a).sessions
      = a.sessions.map (recomputeSession rate a.status tod ts) := by
  rw [recomputeWithRate]
  cases h : a.sessions.map (recomputeSession rate a.status tod ts) <;> simp [h]

theorem recomputeWithRate_totalHours (rate : ℚ) (tod : TimeOfDay) (ts : ℤ)
    (a : Attendance) :
    (recomputeWithRate rate tod ts a).totalHours
      = round4 (((a.sessions.map (recomputeSession rate a.status tod ts)).map
          Session.sessionHours).sum) := by
  rw [recomputeWithRate]
  cases h : a.sessions.map (recomputeSession rate a.status tod ts) <;> simp [h]

theorem recomputeWithRate_dailySalary (rate : ℚ) (tod : TimeOfDay) (ts : ℤ)
    (a : Attendance) :
    (recomputeWithRate rate tod ts a).dailySalary
      = round4 (((a.sessions.map (recomputeSession rate a.status tod ts)).map
          Session.sessionSalary).sum) := by
  rw [recomputeWithRate]
  cases h : a.sessions.map (recomputeSession rate a.status tod ts) <;> simp [h]

theorem recomputeSession_checkInTime (rate : ℚ) (st : Status) (tod : TimeOfDay)
    (ts : ℤ) (s : Session) :
    (recomputeSession rate st tod ts s).checkInTime = s.checkInTime := by
  rw [recomputeSession]
  cases h : s.checkOutTime <;> simp [h]

theorem recomputeSession_checkOutTime (rate : ℚ) (st : Status) (tod : TimeOfDay)
    (ts : ℤ) (s : Session) :
    (recomputeSession rate st tod ts s).checkOutTime = s.checkOutTime := by
  rw [recomputeSession]
  cases h : s.checkOutTime <;> simp [h]

theorem isRound4_recomputeSession_hours (rate : ℚ) (st : Status) (tod : TimeOfDay)
    (ts : ℤ) (s : Session) :
    IsRound4 (recomputeSession rate st tod ts s).sessionHours := by
  rw [recomputeSession]
  cases h : s.checkOutTime <;> simp [h] <;> exact isRound4_calculateHoursWorked _ _

theorem isRound4_recomputeSession_salary (rate : ℚ) (st : Status) (tod : TimeOfDay)
    (ts : ℤ) (s : Session) :
    IsRound4 (recomputeSession rate st tod ts s).sessionSalary := by
  rw [recomputeSession]
  cases h : s.checkOutTime <;> simp [h] <;> exact isRound4_calculateDailySalary _ _ _

theorem recomputeSession_salary_zero (rate : ℚ) {st : Status} (tod : TimeOfDay)
    (ts : ℤ) (s : Session) (h1 : st ≠ Status.present) (h2 : st ≠ Status.late) :
    (recomputeSession rate st tod ts s).sessionSalary = 0 := by
  rw [recomputeSession]
  cases h : s.checkOutTime <;> simp [h, calculateDailySalary, h1, h2]

theorem attendancePreSave_pos (u : User) (h : 0 < u.hourlyRate) (tod : TimeOfDay)
    (ts : ℤ) (a : Attendance) :
    attendancePreSave (some u) tod ts a = recomputeWithRate u.hourlyRate tod ts a := by
  rw [attendancePreSave, if_pos h]

theorem attendancePreSave_nonpos (u : User) (h : ¬ 0 < u.hourlyRate)
    (tod : TimeOfDay) (ts : ℤ) (a : Attendance) :
    attendancePreSave (some u) tod ts a = zeroOutTotals a := by
  rw [attendancePreSave, if_neg h]

theorem attendancePreSave_none (tod : TimeOfDay) (ts : ℤ) (a : Attendance) :
    attendancePreSave none tod ts a = zeroOutTotals a := rfl

theorem round4_zero : round4 0 = 0 := round4_of_isRound4 isRound4_zero

theorem round4_eight : round4 8 = 8 := round4_of_isRound4 ⟨80000, by norm_num⟩

theorem calcHW_nine_seventeen :
    calculateHoursWorked (some ⟨9, 0⟩) (some ⟨17, 0⟩) = 8 := by
  simp only [calculateHoursWorked, TimeOfDay.toMinutes, round4, jsRound_eq_floor]
  norm_num

/-! ## C1: Day Record totals -/

/-- C1 (amended): after recomputation with a positive hourly rate,
`totalHours` is exactly the sum of the sessions' hours and `dailySalary`
exactly the sum of the sessions' salaries, and `dailySalary` is zero whenever
the status is neither present nor late (`totalHours` is NOT forced to zero by
such a status: see the counterexample); when the rate is not positive, or the
user is missing, both totals are simply zeroed while the stored sessions are
left untouched, so `totalHours` then need not equal the stale per-session
sum (see the counterexample). -/
theorem c1_totals_amended (u : User) (tod : TimeOfDay) (ts : ℤ) (a : Attendance) :
    (0 < u.hourlyRate →
      ((attendancePreSave (some u) tod ts a).totalHours
          = ((attendancePreSave (some u) tod ts a).sessions.map Session.sessionHours).sum)
      ∧ ((attendancePreSave (some u) tod ts a).dailySalary
          = ((attendancePreSave (some u) tod ts a).sessions.map Session.sessionSalary).sum)
      ∧ (a.status ≠ Status.present → a.status ≠ Status.late →
          (attendancePreSave (some u) tod ts a).dailySalary = 0))
    ∧ (¬ 0 < u.hourlyRate →
      (attendancePreSave (some u) tod ts a).totalHours = 0
      ∧ (attendancePreSave (some u) tod ts a).dailySalary = 0
      ∧ (attendancePreSave (some u) tod ts a).sessions = a.sessions)
    ∧ ((attendancePreSave none tod ts a).totalHours = 0
      ∧ (attendancePreSave none tod ts a).dailySalary = 0
      ∧ (attendancePreSave none tod ts a).sessions = a.sessions) := by
  refine ⟨fun hrate => ?_, fun hrate => ?_, ?_⟩
  · rw [attendancePreSave_pos u hrate]
    refine ⟨?_, ?_, ?_⟩
    · rw [recomputeWithRate_totalHours, recomputeWithRate_sessions]
      refine round4_of_isRound4 (isRound4_sum ?_)
      intro q hq
      rw [List.mem_map] at hq
      obtain ⟨s, hs, rfl⟩ := hq
      rw [List.mem_map] at hs
      obtain ⟨s0, _, rfl⟩ := hs
      exact isRound4_recomputeSession_hours _ _ _ _ _
    · rw [recomputeWithRate_dailySalary, recomputeWithRate_sessions]
      refine round4_of_isRound4 (isRound4_sum ?_)
      intro q hq
      rw [List.mem_map] at hq
      obtain ⟨s, hs, rfl⟩ := hq
      rw [List.mem_map] at hs
      obtain ⟨s0, _, rfl⟩ := hs
      exact isRound4_recomputeSession_salary _ _ _ _ _
    · intro h1 h2
      rw [recomputeWithRate_dailySalary]
      have hz : (((a.sessions.map (recomputeSession u.hourlyRate a.status tod ts)).map
          Session.sessionSalary)).sum = 0 := by
        apply List.sum_eq_zero
        intro x hx
        rw [List.mem_map] at hx
        obtain ⟨s, hs, rfl⟩ := hx
        rw [List.mem_map] at hs
        obtain ⟨s0, _, rfl⟩ := hs
        exact recomputeSession_salary_zero _ _ _ _ h1 h2
      rw [hz]
      exact round4_zero
  · rw [attendancePreSave_nonpos u hrate]
    exact ⟨rfl, rfl, rfl⟩
  · rw [attendancePreSave_none]
    exact ⟨rfl, rfl, rfl⟩

/-- An absent-status Day Record with one completed 09:00 to 17:00 session. -/
def c1_cx_att : Attendance :=
  { status := Status.absent,
    sessions := [{ checkInTime := ⟨9, 0⟩, checkOutTime := some ⟨17, 0⟩,
                   sessionHours := 0, sessionSalary := 0,
                   isActive := true, endedAt := none }],
    checkInTime := none, checkOutTime := none, totalHours := 0,
    hourlyRate := 0, dailySalary := 0, isLate := false, lateMinutes := 0,
    isActive := true, forceStopped := false, forceStoppedBy := none,
    forceStoppedAt := none }

/-- A present-status Day Record carrying stale 8-hour per-session values
(as left behind by an earlier recomputation at a positive rate). -/
def c1_cx_att_stale : Attendance :=
  { status := Status.present,
    sessions := [{ checkInTime := ⟨9, 0⟩, checkOutTime := some ⟨17, 0⟩,
                   sessionHours := 8, sessionSalary := 160,
                   isActive := false, endedAt := none }],
    checkInTime := some ⟨9, 0⟩, checkOutTime := some ⟨17, 0⟩, totalHours := 8,
    hourlyRate := 20, dailySalary := 160, isLate := false, lateMinutes := 0,
    isActive := false, forceStopped := false, forceStoppedBy := none,
    forceStoppedAt := none }

/-- C1 counterexample, refuting the claim at two concrete inputs: (a) at
rate 20, recomputing an absent-status record holding a completed 8-hour
session leaves `totalHours = 8 ≠ 0`, against "both totalHours and dailySalary
are zero whenever status is not present and not late"; (b) at rate 0,
recomputing a record with stale 8-hour session values zeroes `totalHours`
while the stored sessions keep `sessionHours = 8`, against "totalHours equals
the sum over all sessions of that session's hoursWorked". -/
theorem c1_counterexample :
    (c1_cx_att.status ≠ Status.present ∧ c1_cx_att.status ≠ Status.late ∧
      (attendancePreSave (some ⟨20⟩) ⟨18, 0⟩ 0 c1_cx_att).totalHours ≠ 0)
    ∧ (attendancePreSave (some ⟨0⟩) ⟨18, 0⟩ 0 c1_cx_att_stale).totalHours
        ≠ ((attendancePreSave (some ⟨0⟩) ⟨18, 0⟩ 0 c1_cx_att_stale).sessions.map
            Session.sessionHours).sum := by
  constructor
  · refine ⟨by decide, by decide, ?_⟩
    rw [attendancePreSave_pos ⟨20⟩ (by norm_num), recomputeWithRate_totalHours]
    simp only [c1_cx_att, List.map_cons, List.map_nil, recomputeSession,
      calcHW_nine_seventeen, List.sum_cons, List.sum_nil, add_zero]
    rw [round4_eight]
    norm_num
  · rw [attendancePreSave_nonpos ⟨0⟩ (by norm_num)]
    norm_num [zeroOutTotals, c1_cx_att_stale]

/-- C1 witness: the amended theorem applied at a concrete record and a
positive rate, and at a second record with a zero rate. -/
theorem c1_totals_amended_witness :
    (((attendancePreSave (some ⟨20⟩) ⟨18, 0⟩ 0 c1_cx_att).totalHours
        = ((attendancePreSave (some ⟨20⟩) ⟨18, 0⟩ 0 c1_cx_att).sessions.map
            Session.sessionHours).sum)
      ∧ ((attendancePreSave (some ⟨20⟩) ⟨18, 0⟩ 0 c1_cx_att).dailySalary
        = ((attendancePreSave (some ⟨20⟩) ⟨18, 0⟩ 0 c1_cx_att).sessions.map
            Session.sessionSalary).sum)
      ∧ (c1_cx_att.status ≠ Status.present → c1_cx_att.status ≠ Status.late →
          (attendancePreSave (some ⟨20⟩) ⟨18, 0⟩ 0 c1_cx_att).dailySalary = 0))
    ∧ ((attendancePreSave (some ⟨0⟩) ⟨18, 0⟩ 0 c1_cx_att_stale).totalHours = 0
      ∧ (attendancePreSave (some ⟨0⟩) ⟨18, 0⟩ 0 c1_cx_att_stale).dailySalary = 0
      ∧ (attendancePreSave (some ⟨0⟩) ⟨18, 0⟩ 0 c1_cx_att_stale).sessions
          = c1_cx_att_stale.sessions) :=
  ⟨(c1_totals_amended ⟨20⟩ ⟨18, 0⟩ 0 c1_cx_att).1 (by norm_num),
   (c1_totals_amended ⟨0⟩ ⟨18, 0⟩ 0 c1_cx_att_stale).2.1 (by norm_num)⟩

/-! ## C4: idempotence of the recompute step -/

theorem recomputeSession_idem (rate : ℚ) (st : Status) (tod : TimeOfDay) (ts : ℤ)
    (s : Session) :
    recomputeSession rate st tod ts (recomputeSession rate st tod ts s)
      = recomputeSession rate st tod ts s := by
  cases h : s.checkOutTime with
  | none => simp [recomputeSession, h]
  | some x => simp [recomputeSession, h]

theorem map_recomputeSession_idem (rate : ℚ) (st : Status) (tod : TimeOfDay)
    (ts : ℤ) (l : List Session) :
    (l.map (recomputeSession rate st tod ts)).map (recomputeSession rate st tod ts)
      = l.map (recomputeSession rate st tod ts) := by
  induction l with
  | nil => rfl
  | cons x xs ih => simp only [List.map_cons, recomputeSession_idem rate st tod ts x, ih]

theorem recomputeWithRate_idem (rate : ℚ) (tod : TimeOfDay) (ts : ℤ)
    (a : Attendance) :
    recomputeWithRate rate tod ts (recomputeWithRate rate tod ts a)
      = recomputeWithRate rate tod ts a := by
  obtain ⟨st, ss, ci, co, th, hr, ds, il, lm, ia, fs, fb, fa⟩ := a
  simp only [recomputeWithRate]
  cases hmap : ss.map (recomputeSession rate st tod ts) with
  | nil => simp [hmap]
  | cons first rest =>
    have hidem : (first :: rest).map (recomputeSession rate st tod ts) = first :: rest := by
      rw [← hmap, map_recomputeSession_idem]
    simp [hmap, hidem]

theorem zeroOutTotals_idem (a : Attendance) :
    zeroOutTotals (zeroOutTotals a) = zeroOutTotals a := rfl

/-- C4: the pre-save recomputation is idempotent — running it twice with the
same user, current time and timestamp yields exactly the same Day Record
(hence the same sessionHours, sessionSalary, totalHours, dailySalary and
legacy mirror fields) as running it once. -/
theorem c4_recompute_idempotent (user : Option User) (tod : TimeOfDay) (ts : ℤ)
    (a : Attendance) :
    attendancePreSave user tod ts (attendancePreSave user tod ts a)
      = attendancePreSave user tod ts a := by
  cases user with
  | none => rw [attendancePreSave_none, attendancePreSave_none, zeroOutTotals_idem]
  | some u =>
    by_cases h : 0 < u.hourlyRate
    · rw [attendancePreSave_pos u h, attendancePreSave_pos u h, recomputeWithRate_idem]
    · rw [attendancePreSave_nonpos u h, attendancePreSave_nonpos u h, zeroOutTotals_idem]

/-! ## C10: activity flags after a save -/

theorem recomputeSession_isActive (rate : ℚ) (st : Status) (tod : TimeOfDay)
    (ts : ℤ) (s : Session) :
    (recomputeSession rate st tod ts s).isActive
      = (recomputeSession rate st tod ts s).checkOutTime.isNone := by
  cases h : s.checkOutTime <;> simp [recomputeSession, h]

theorem recomputeWithRate_isActive_ne_nil (rate : ℚ) (tod : TimeOfDay) (ts : ℤ)
    (a : Attendance) (h : a.sessions ≠ []) :
    (recomputeWithRate rate tod ts a).isActive
      = (recomputeWithRate rate tod ts a).sessions.any (fun s => s.isActive) := by
  rw [recomputeWithRate_sessions]
  rw [recomputeWithRate]
  cases hss : a.sessions with
  | nil => exact absurd hss h
  | cons x xs => simp [hss]

/-- C10 (amended): after a save with a positive hourly rate, every embedded
session satisfies `isActive = (checkOutTime is null)`; the record-level
`isActive` equals "some session is active" whenever the session list is
nonempty (with an empty list the caller-written record-level flag is kept:
see the counterexample). -/
theorem c10_active_invariant_amended (u : User) (hrate : 0 < u.hourlyRate)
    (tod : TimeOfDay) (ts : ℤ) (a : Attendance) :
    (∀ s ∈ (attendancePreSave (some u) tod ts a).sessions,
        s.isActive = s.checkOutTime.isNone)
    ∧ (a.sessions ≠ [] →
        (attendancePreSave (some u) tod ts a).isActive
          = (attendancePreSave (some u) tod ts a).sessions.any (fun s => s.isActive)) := by
  rw [attendancePreSave_pos u hrate]
  constructor
  · intro s hs
    rw [recomputeWithRate_sessions, List.mem_map] at hs
    obtain ⟨s0, _, rfl⟩ := hs
    exact recomputeSession_isActive _ _ _ _ _
  · intro h
    exact recomputeWithRate_isActive_ne_nil _ _ _ _ h

/-- A Day Record with no sessions whose caller wrote `isActive = true`. -/
def c10_cx_att : Attendance :=
  { status := Status.present, sessions := [],
    checkInTime := none, checkOutTime := none, totalHours := 0,
    hourlyRate := 0, dailySalary := 0, isLate := false, lateMinutes := 0,
    isActive := true, forceStopped := false, forceStoppedBy := none,
    forceStoppedAt := none }

/-- C10 counterexample: saving a record with an empty session list and a
caller-written `isActive = true` (rate 20) keeps `isActive = true` even
though no session is active, refuting "the record-level isActive equals
'some session is active'" for every save. -/
theorem c10_counterexample :
    (attendancePreSave (some ⟨20⟩) ⟨10, 0⟩ 0 c10_cx_att).isActive = true
    ∧ ((attendancePreSave (some ⟨20⟩) ⟨10, 0⟩ 0 c10_cx_att).sessions.any
        (fun s => s.isActive)) = false := by
  rw [attendancePreSave_pos ⟨20⟩ (by norm_num)]
  constructor <;> simp [recomputeWithRate, c10_cx_att]

/-- C10 witness: the amended theorem applied at a concrete record with one
completed session. -/
theorem c10_active_invariant_amended_witness :
    (∀ s ∈ (attendancePreSave (some ⟨20⟩) ⟨18, 0⟩ 0 c1_cx_att).sessions,
        s.isActive = s.checkOutTime.isNone)
    ∧ (c1_cx_att.sessions ≠ [] →
        (attendancePreSave (some ⟨20⟩) ⟨18, 0⟩ 0 c1_cx_att).isActive
          = (attendancePreSave (some ⟨20⟩) ⟨18, 0⟩ 0 c1_cx_att).sessions.any
              (fun s => s.isActive)) :=
  c10_active_invariant_amended ⟨20⟩ (by norm_num) ⟨18, 0⟩ 0 c1_cx_att

/-! ## C9: missing or malformed userId -/

/-- C9 (amended): a StartSession or StopSession call with a missing or
malformed `userId` returns the success-shaped body with null payload and
leaves the stored state unchanged — it is not rejected with a
ValidationError. -/
theorem c9_validation_amended (user : Option User) (ts : ℤ) (tod : TimeOfDay)
    (st : DayState) :
    startSession UserIdParam.missing user ts tod st = (st, ApiResponse.success none)
    ∧ startSession UserIdParam.malformed user ts tod st = (st, ApiResponse.success none)
    ∧ stopSession UserIdParam.missing user ts tod st = (st, ApiResponse.success none)
    ∧ stopSession UserIdParam.malformed user ts tod st = (st, ApiResponse.success none) :=
  ⟨rfl, rfl, rfl, rfl⟩

/-- C9 counterexample: a StartSession call with a missing `userId` answers
with a success-shaped response, not with any error, refuting "rejected with
a ValidationError". -/
theorem c9_counterexample :
    (startSession UserIdParam.missing none 0 ⟨0, 0⟩ ⟨[], none⟩).2
        = ApiResponse.success none
    ∧ ∀ c : ℕ, (startSession UserIdParam.missing none 0 ⟨0, 0⟩ ⟨[], none⟩).2
        ≠ ApiResponse.error c :=
  ⟨rfl, fun _ h => ApiResponse.noConfusion h⟩

/-! ## C8: stopping with no active session -/

/-- C8: a StopSession call with a valid `userId` but no active ledger session
for `(userId, today)` succeeds as a no-op: it returns the success-shaped
null-payload body and mutates nothing. -/
theorem c8_stop_noop (user : Option User) (ts : ℤ) (tod : TimeOfDay)
    (st : DayState) (h : findActiveSession st.ledger = none) :
    stopSession UserIdParam.valid user ts tod st = (st, ApiResponse.success none) := by
  simp only [stopSession, h]

/-- C8 witness: stopping on an empty ledger is a no-op success. -/
theorem c8_stop_noop_witness :
    stopSession UserIdParam.valid none 0 ⟨0, 0⟩ ⟨[], none⟩
      = (⟨[], none⟩, ApiResponse.success none) :=
  c8_stop_noop none 0 ⟨0, 0⟩ ⟨[], none⟩ rfl

/-! ## C2: at most one active session per (user, day) -/

/-- C2: starting a session while an active ledger session already exists for
`(userId, today)` returns that session unchanged and creates nothing, and the
start operation preserves "at most one ledger session is active". -/
theorem c2_single_active_invariant (u : User) (ts : ℤ) (tod : TimeOfDay)
    (st : DayState) :
    (∀ i act, findActiveSession st.ledger = some (i, act) →
        startSession UserIdParam.valid (some u) ts tod st
          = (st, ApiResponse.success (some act)))
    ∧ (countActive st.ledger ≤ 1 →
        countActive (startSession UserIdParam.valid (some u) ts tod st).1.ledger ≤ 1) := by
  constructor
  · intro i act h
    simp only [startSession, h]
  · intro hle
    cases hfa : findActiveSession st.ledger with
    | some pair =>
      obtain ⟨i, act⟩ := pair
      simp only [startSession, hfa]
      exact hle
    | none =>
      have hzero : countActive st.ledger = 0 := by
        rw [findActiveSession] at hfa
        cases hidx : st.ledger.findIdx? (fun s => s.isActive) with
        | some i =>
          have hlt : i < st.ledger.length :=
            (List.findIdx?_eq_some_iff_findIdx_eq.mp hidx).1
          rw [hidx] at hfa
          simp at hfa
          exact absurd hfa (by omega)
        | none =>
          rw [countActive, List.countP_eq_zero]
          intro s hs
          have := List.findIdx?_eq_none_iff.mp hidx s hs
          simp_all
      simp only [startSession, hfa]
      rw [countActive, List.countP_append]
      rw [countActive] at hzero
      rw [hzero]
      simp [List.countP_cons]

/-- A single active ledger document checked in at timestamp 0. -/
def act0 : ActiveSessionRec :=
  { checkInTime := 0, isActive := true, totalHours := 0, lastUpdated := none,
    forceStopped := false, forceStoppedBy := none, forceStoppedAt := none }

/-- C2 witness: starting on a state with one active ledger session returns it
unchanged, and the invariant bound holds afterwards. -/
theorem c2_single_active_invariant_witness :
    startSession UserIdParam.valid (some ⟨20⟩) 5 ⟨0, 0⟩ ⟨[act0], none⟩
      = (⟨[act0], none⟩, ApiResponse.success (some act0))
    ∧ countActive (startSession UserIdParam.valid (some ⟨20⟩) 5 ⟨0, 0⟩
        ⟨[act0], none⟩).1.ledger ≤ 1 :=
  ⟨(c2_single_active_invariant ⟨20⟩ 5 ⟨0, 0⟩ ⟨[act0], none⟩).1 0 act0 rfl,
   (c2_single_active_invariant ⟨20⟩ 5 ⟨0, 0⟩ ⟨[act0], none⟩).2 (by decide)⟩

/-! ## C7: force-stop with nothing to stop -/

/-- C7 (amended): a force-stop whose target has zero open sessions fails and
mutates nothing, but the error code discriminates: 404 (NotFound) only when
the Attendance record (admin route) or the ledger document (controller) is
absent; a target that exists with no active session fails with 400, not 404. -/
theorem c7_forcestop_errors_amended (adminId : Option String) (user : Option User)
    (ts : ℤ) (tod : TimeOfDay) (st : DayState) :
    (st.attendance = none →
        adminForceStopRoute adminId user ts tod st = (st, ApiResponse.error 404))
    ∧ (∀ att, st.attendance = some att →
        att.sessions.countP (fun s => s.isActive) = 0 →
        adminForceStopRoute adminId user ts tod st = (st, ApiResponse.error 400))
    ∧ (∀ i, st.ledger[i]? = none →
        forceStopSession i adminId user ts tod st = (st, ApiResponse.error 404))
    ∧ (∀ i act, st.ledger[i]? = some act → act.isActive = false →
        forceStopSession i adminId user ts tod st = (st, ApiResponse.error 400)) := by
  refine ⟨?_, ?_, ?_, ?_⟩
  · intro h
    simp only [adminForceStopRoute, h]
  · intro att h hcount
    simp [adminForceStopRoute, h, hcount]
  · intro i h
    simp only [forceStopSession, h]
  · intro i act h hact
    simp [forceStopSession, h, hact]

/-- A Day Record whose only session is already closed (zero open sessions). -/
def c7_cx_att : Attendance :=
  { status := Status.present,
    sessions := [{ checkInTime := ⟨9, 0⟩, checkOutTime := some ⟨17, 0⟩,
                   sessionHours := 8, sessionSalary := 160,
                   isActive := false, endedAt := none }],
    checkInTime := some ⟨9, 0⟩, checkOutTime := some ⟨17, 0⟩, totalHours := 8,
    hourlyRate := 20, dailySalary := 160, isLate := false, lateMinutes := 0,
    isActive := false, forceStopped := false, forceStoppedBy := none,
    forceStoppedAt := none }

/-- C7 counterexample: force-stopping a target whose Day Record exists but
has zero open sessions answers 400, not the 404 (NotFoundError) the claim
requires. -/
theorem c7_counterexample :
    (adminForceStopRoute none none 0 ⟨18, 0⟩ ⟨[], some c7_cx_att⟩).2
        = ApiResponse.error 400
    ∧ (adminForceStopRoute none none 0 ⟨18, 0⟩ ⟨[], some c7_cx_att⟩).2
        ≠ ApiResponse.error 404 := by
  have h : adminForceStopRoute none none 0 ⟨18, 0⟩ ⟨[], some c7_cx_att⟩
      = (⟨[], some c7_cx_att⟩, ApiResponse.error 400) := by
    simp [adminForceStopRoute, c7_cx_att]
  rw [h]
  exact ⟨rfl, by simp⟩

/-- C7 witness: the amended theorem applied at a state with no record and at
a state with a record holding no open session. -/
theorem c7_forcestop_errors_amended_witness :
    adminForceStopRoute none none 0 ⟨0, 0⟩ ⟨[], none⟩
      = (⟨[], none⟩, ApiResponse.error 404)
    ∧ adminForceStopRoute none none 0 ⟨18, 0⟩ ⟨[], some c7_cx_att⟩
      = (⟨[], some c7_cx_att⟩, ApiResponse.error 400) :=
  ⟨(c7_forcestop_errors_amended none none 0 ⟨0, 0⟩ ⟨[], none⟩).1 rfl,
   (c7_forcestop_errors_amended none none 0 ⟨18, 0⟩ ⟨[], some c7_cx_att⟩).2.1
     c7_cx_att rfl (by decide)⟩

/-! ## C6: force-stop versus normal stop -/

theorem recomputeWithRate_prov (rate : ℚ) (tod : TimeOfDay) (ts : ℤ)
    (a : Attendance) (b : Bool) (fb : Option String) (fa : Option ℤ) :
    recomputeWithRate rate tod ts
        { a with forceStopped := b, forceStoppedBy := fb, forceStoppedAt := fa }
      = { recomputeWithRate rate tod ts a with
          forceStopped := b, forceStoppedBy := fb, forceStoppedAt := fa } := by
  obtain ⟨st, ss, ci, co, th, hr, ds, il, lm, ia, fs0, fb0, fa0⟩ := a
  simp only [recomputeWithRate]
  cases hmap : ss.map (recomputeSession rate st tod ts) with
  | nil => simp [hmap]
  | cons x xs => simp [hmap]

theorem attendancePreSave_prov (user : Option User) (tod : TimeOfDay) (ts : ℤ)
    (a : Attendance) (b : Bool) (fb : Option String) (fa : Option ℤ) :
    attendancePreSave user tod ts
        { a with forceStopped := b, forceStoppedBy := fb, forceStoppedAt := fa }
      = { attendancePreSave user tod ts a with
          forceStopped := b, forceStoppedBy := fb, forceStoppedAt := fa } := by
  cases user with
  | none => rfl
  | some u =>
    by_cases h : 0 < u.hourlyRate
    · rw [attendancePreSave_pos u h, attendancePreSave_pos u h,
        recomputeWithRate_prov]
    · rw [attendancePreSave_nonpos u h, attendancePreSave_nonpos u h]
      rfl

theorem findActiveSession_eq_some {l : List ActiveSessionRec} {i : ℕ}
    {act : ActiveSessionRec} (h : findActiveSession l = some (i, act)) :
    l.findIdx? (fun s => s.isActive) = some i ∧ l[i]? = some act
      ∧ act.isActive = true := by
  cases hidx : l.findIdx? (fun s => s.isActive) with
  | none =>
    simp only [findActiveSession, hidx] at h
    exact absurd h (by simp)
  | some j =>
    simp only [findActiveSession, hidx] at h
    cases hg : l[j]? with
    | none => rw [hg] at h; exact absurd h (by simp)
    | some s =>
      rw [hg] at h
      simp only [Option.map_some'] at h
      have hpair := Option.some.inj h
      have hj : j = i := congrArg Prod.fst hpair
      have hs : s = act := congrArg Prod.snd hpair
      subst hj
      subst hs
      refine ⟨rfl, hg, ?_⟩
      obtain ⟨hlt, hp, -⟩ := List.findIdx?_eq_some_iff_getElem.mp hidx
      have hval : l[j] = s := by
        have h2 := (List.getElem?_eq_getElem hlt).symm.trans hg
        exact Option.some.inj h2
      rw [hval] at hp
      exact hp

/-- C6 (amended): force-stopping the open session that a normal stop at the
same instant would close mutates the stores exactly as the normal stop does,
except that (a) the ledger document's `totalHours` is rounded to 2 decimal
places instead of the stop path's 4, and (b) the three provenance fields
`forceStopped`, `forceStoppedBy`, `forceStoppedAt` are additionally stamped
on the ledger document and on the Day Record.  The embedded session itself is
closed identically (same `checkOutTime`, `isActive = false`, same 4-decimal
hours). -/
theorem c6_forcestop_matches_stop (adminId : Option String) (user : Option User)
    (ts : ℤ) (tod : TimeOfDay) (st : DayState) (i : ℕ) (act : ActiveSessionRec)
    (hfound : findActiveSession st.ledger = some (i, act)) :
    (forceStopSession i adminId user ts tod st).1.ledger
      = st.ledger.set i
          { act with isActive := false,
                     totalHours := round2 (((ts - act.checkInTime : ℤ) : ℚ) / (1000 * 60 * 60)),
                     lastUpdated := some ts, forceStopped := true,
                     forceStoppedBy := some (adminId.getD "admin"),
                     forceStoppedAt := some ts }
    ∧ (stopSession UserIdParam.valid user ts tod st).1.ledger
      = st.ledger.set i
          { act with isActive := false,
                     totalHours := round4 (((ts - act.checkInTime : ℤ) : ℚ) / (1000 * 60 * 60)),
                     lastUpdated := some ts }
    ∧ (forceStopSession i adminId user ts tod st).1.attendance
      = (stopSession UserIdParam.valid user ts tod st).1.attendance.map
          (fun a => { a with forceStopped := true,
                             forceStoppedBy := some (adminId.getD "admin"),
                             forceStoppedAt := some ts }) := by
  obtain ⟨hidx, hget, hact⟩ := findActiveSession_eq_some hfound
  refine ⟨?_, ?_, ?_⟩
  · simp only [forceStopSession, hget, hact]
    cases hatt : st.attendance <;> simp [hatt]
  · simp only [stopSession, hfound]
    cases hatt : st.attendance <;> simp [hatt]
  · simp only [forceStopSession, stopSession, hfound, hget, hact]
    cases hatt : st.attendance with
    | none => simp [hatt]
    | some att =>
      simp only [hatt, Option.map_some']
      rw [attendancePreSave_prov]
      simp

/-- State with a single open ledger session checked in at timestamp 0. -/
def c6_cx_state : DayState := { ledger := [act0], attendance := none }

/-- C6 counterexample: at 3600360 ms elapsed (1.0001 h) the normal stop
stores 1.0001 on the ledger document while the force-stop stores 1 — the two
paths do not use the same rounding, refuting "same computed hours (same
formula and same rounding)". -/
theorem c6_counterexample :
    (forceStopSession 0 none none 3600360 ⟨1, 0⟩ c6_cx_state).1.ledger.map
        ActiveSessionRec.totalHours
      ≠ (stopSession UserIdParam.valid none 3600360 ⟨1, 0⟩ c6_cx_state).1.ledger.map
        ActiveSessionRec.totalHours := by
  have hf : (forceStopSession 0 none none 3600360 ⟨1, 0⟩ c6_cx_state).1.ledger.map
      ActiveSessionRec.totalHours = [round2 (((3600360 - 0 : ℤ) : ℚ) / (1000 * 60 * 60))] := by
    simp [forceStopSession, c6_cx_state, act0]
  have hs : (stopSession UserIdParam.valid none 3600360 ⟨1, 0⟩ c6_cx_state).1.ledger.map
      ActiveSessionRec.totalHours = [round4 (((3600360 - 0 : ℤ) : ℚ) / (1000 * 60 * 60))] := by
    simp [stopSession, findActiveSession, c6_cx_state, act0]
  rw [hf, hs]
  have h2 : round2 (((3600360 - 0 : ℤ) : ℚ) / (1000 * 60 * 60)) = 1 := by
    rw [round2, jsRound_eq_floor]
    norm_num
  have h4 : round4 (((3600360 - 0 : ℤ) : ℚ) / (1000 * 60 * 60)) = 10001 / 10000 := by
    rw [round4, jsRound_eq_floor]
    norm_num
  rw [h2, h4]
  intro h
  rw [List.cons.injEq] at h
  norm_num at h

/-- C6 witness: the amended theorem applied at the concrete one-session
state. -/
theorem c6_forcestop_matches_stop_witness :
    (forceStopSession 0 none none 3600360 ⟨1, 0⟩ c6_cx_state).1.ledger
      = c6_cx_state.ledger.set 0
          { act0 with isActive := false,
                      totalHours := round2 (((3600360 - act0.checkInTime : ℤ) : ℚ) / (1000 * 60 * 60)),
                      lastUpdated := some 3600360, forceStopped := true,
                      forceStoppedBy := some "admin",
                      forceStoppedAt := some 3600360 }
    ∧ (stopSession UserIdParam.valid none 3600360 ⟨1, 0⟩ c6_cx_state).1.ledger
      = c6_cx_state.ledger.set 0
          { act0 with isActive := false,
                      totalHours := round4 (((3600360 - act0.checkInTime : ℤ) : ℚ) / (1000 * 60 * 60)),
                      lastUpdated := some 3600360 }
    ∧ (forceStopSession 0 none none 3600360 ⟨1, 0⟩ c6_cx_state).1.attendance
      = (stopSession UserIdParam.valid none 3600360 ⟨1, 0⟩ c6_cx_state).1.attendance.map
          (fun a => { a with forceStopped := true,
                             forceStoppedBy := some "admin",
                             forceStoppedAt := some 3600360 }) :=
  c6_forcestop_matches_stop none none 3600360 ⟨1, 0⟩ c6_cx_state 0 act0 rfl

/-! ## C5: end-to-end check-in 09:05, check-out 17:05, rate 20 -/

theorem calcHW_refl (t : TimeOfDay) : calculateHoursWorked (some t) (some t) = 0 := by
  simp [calculateHoursWorked, round4_zero]

theorem calcHW_nine05_seventeen05 :
    calculateHoursWorked (some ⟨9, 5⟩) (some ⟨17, 5⟩) = 8 := by
  simp only [calculateHoursWorked, TimeOfDay.toMinutes, round4, jsRound_eq_floor]
  norm_num

theorem salary_zero_hours (r : ℚ) (st : Status) : calculateDailySalary 0 r st = 0 := by
  rw [calculateDailySalary]
  split
  · simp [round4_zero]
  · rfl

theorem salary_eight_twenty : calculateDailySalary 8 20 Status.present = 160 := by
  rw [calculateDailySalary, if_pos (Or.inl rfl), round4, jsRound_eq_floor]
  norm_num

/-- The user of the end-to-end scenario: hourly rate 20. -/
def c5_user : User := { hourlyRate := 20 }

/-- The ledger document created by the 09:05 check-in (09:05 = 32700000 ms
into the day). -/
def c5_act : ActiveSessionRec :=
  { checkInTime := 32700000, isActive := true, totalHours := 0,
    lastUpdated := some 32700000, forceStopped := false,
    forceStoppedBy := none, forceStoppedAt := none }

/-- The Day Record right after the 09:05 check-in (already recomputed by the
pre-save middleware). -/
def c5_att1 : Attendance :=
  { status := Status.present,
    sessions := [{ checkInTime := ⟨9, 5⟩, checkOutTime := none,
                   sessionHours := 0, sessionSalary := 0,
                   isActive := true, endedAt := none }],
    checkInTime := some ⟨9, 5⟩, checkOutTime := none, totalHours := 0,
    hourlyRate := 20, dailySalary := 0, isLate := false, lateMinutes := 0,
    isActive := true, forceStopped := false, forceStoppedBy := none,
    forceStoppedAt := none }

/-- State after the 09:05 check-in on an empty initial state. -/
def c5_afterStart : DayState :=
  (startSession UserIdParam.valid (some c5_user) 32700000 ⟨9, 5⟩ ⟨[], none⟩).1

/-- State after the 17:05 check-out (17:05 = 61500000 ms into the day). -/
def c5_final : DayState :=
  (stopSession UserIdParam.valid (some c5_user) 61500000 ⟨17, 5⟩ c5_afterStart).1

theorem c5_afterStart_eval :
    c5_afterStart = { ledger := [c5_act], attendance := some c5_att1 } := by
  norm_num [c5_afterStart, startSession, findActiveSession, newAttendanceForStart,
    c5_user, attendancePreSave, recomputeWithRate, recomputeSession,
    calcHW_refl, salary_zero_hours, round4_zero, c5_act, c5_att1]

/-- The Day Record after the 17:05 check-out of the end-to-end scenario. -/
def c5_attFinal : Attendance :=
  { status := Status.present,
    sessions := [{ checkInTime := ⟨9, 5⟩, checkOutTime := some ⟨17, 5⟩,
                   sessionHours := 8, sessionSalary := 160,
                   isActive := false, endedAt := some 61500000 }],
    checkInTime := some ⟨9, 5⟩, checkOutTime := some ⟨17, 5⟩, totalHours := 8,
    hourlyRate := 20, dailySalary := 160, isLate := false, lateMinutes := 0,
    isActive := false, forceStopped := false, forceStoppedBy := none,
    forceStoppedAt := none }

theorem c5_final_eval : c5_final.attendance = some c5_attFinal := by
  rw [c5_final, c5_afterStart_eval]
  norm_num [stopSession, findActiveSession, c5_user, c5_act, c5_att1,
    closeEmbeddedSession, attendancePreSave, recomputeWithRate, recomputeSession,
    calcHW_nine05_seventeen05, salary_eight_twenty, c5_attFinal,
    round4, jsRound_eq_floor]

/-- C5 (amended): the end-to-end 09:05 check-in / 17:05 check-out at rate 20
yields `totalHours = 8` and `dailySalary = 160`, but `isLate = false` and
`lateMinutes = 0`: the session check-in path never computes lateness (only
the manual record-creation routes do), so the record keeps the schema
defaults. -/
theorem c5_end_to_end_amended :
    c5_final.attendance.map Attendance.totalHours = some 8
    ∧ c5_final.attendance.map Attendance.dailySalary = some 160
    ∧ c5_final.attendance.map Attendance.isLate = some false
    ∧ c5_final.attendance.map Attendance.lateMinutes = some 0 := by
  rw [c5_final_eval]
  exact ⟨rfl, rfl, rfl, rfl⟩

/-- C5 counterexample: the end-to-end scenario produces `isLate = false` and
`lateMinutes = 0`, refuting the claimed `isLate = true`, `lateMinutes = 5`. -/
theorem c5_counterexample :
    c5_final.attendance.map Attendance.isLate ≠ some true
    ∧ c5_final.attendance.map Attendance.lateMinutes ≠ some 5 := by
  rw [c5_final_eval]
  constructor
  · intro h
    exact absurd (Option.some.inj h) (by simp [c5_attFinal])
  · intro h
    exact absurd (Option.some.inj h) (by simp [c5_attFinal])
